import Mathlib

/-!
Shallow embedding of the installer core of the Kubernetes-Multi-OS-Installer
repository (src/electron/main.cjs) and verification of its specification.

The embedding models:
  * the Node `exec`-based process runner (`executeCommand`, lines 125-173),
  * the probe runner (`checkCommand`, lines 81-111) and the prerequisite
    battery (`checkPrerequisites`, lines 113-123),
  * package-manager detection (`detectPackageManager` /
    `detectLinuxPackageManager`, lines 29-50),
  * the per-component install command resolution and the already-installed
    reclassification (`installDocker` .. `installHelm`, lines 234-511),
  * `installHomebrew` (lines 175-194), the IPC dispatchers for
    `install-component` (lines 629-646) and `start-cluster` (lines 648-664).

External process behaviour is an oracle: a value of type `ProcOutcome`
(given per command by an environment function) says whether the spawned
process exited with some code, timed out, or failed to spawn.  The Node
`exec` callback convention — `error` is null exactly when the process
exited with code 0; on a timeout kill `error.code` is null — is encoded by
`execCallbackOf`.  Functions that spawn processes additionally return the
list of (command line, effective timeout in ms) pairs they dispatched, so
that "no process is spawned" claims are statable.
-/

/-- Outcome of attempting to run one external process: normal exit with a
code, killed on timeout, or the spawn itself failed. -/
inductive ProcOutcome where
  | exited (code : Nat) (stdout stderr : String)
  | timedOut (stdout stderr : String)
  | spawnFailed (message : String)
deriving DecidableEq, Repr

/-- The error object Node passes to the `exec` callback, reduced to what the
source reads from it: `exitError c` models a non-zero exit (error.code = c),
`killed` a timeout kill (error.code null), `spawnError` a spawn failure. -/
inductive ExecErrorInfo where
  | exitError (code : Nat)
  | killed
  | spawnError (message : String)
deriving DecidableEq, Repr

/-- The `(error, stdout, stderr)` triple handed to the `exec` callback. -/
structure ExecCallbackArgs where
  error : Option ExecErrorInfo
  stdout : String
  stderr : String
deriving DecidableEq, Repr

/-- Node `exec` semantics: the callback error is `none` iff the process
exited with code 0; timeouts and spawn failures carry an error value. -/
def execCallbackOf : ProcOutcome → ExecCallbackArgs
  | .exited c out err =>
      if c = 0 then ⟨none, out, err⟩ else ⟨some (.exitError c), out, err⟩
  | .timedOut out err => ⟨some .killed, out, err⟩
  | .spawnFailed msg => ⟨some (.spawnError msg), "", ""⟩

/-- The `error.code` field the source reads (null for kills and spawn
failures, the exit code for non-zero exits). -/
def errorCodeOf : ExecErrorInfo → Option Nat
  | .exitError c => some c
  | .killed => none
  | .spawnError _ => none

/-- True exactly when the process ran and exited with code 0. -/
def exitsZero : ProcOutcome → Bool
  | .exited c _ _ => c == 0
  | .timedOut _ _ => false
  | .spawnFailed _ => false

/-- The exit-code value the runner is expected to surface per outcome. -/
def execCode : ProcOutcome → Option Nat
  | .exited c _ _ => some c
  | .timedOut _ _ => none
  | .spawnFailed _ => none

/-- Does the character list `sub` occur as a contiguous sublist of `s`?
Models JavaScript `String.prototype.includes` on the underlying chars. -/
def subOccurs : List Char → List Char → Bool
  | [], sub => sub.isEmpty
  | c :: rest, sub => sub.isPrefixOf (c :: rest) || subOccurs rest sub

/-- JavaScript `s.includes(sub)` on Lean strings. -/
def containsSub (s sub : String) : Bool :=
  subOccurs s.data sub.data

/-- Does `s` end with the string `suf`? -/
def endsWithStr (s suf : String) : Bool :=
  suf.data.isSuffixOf s.data

/-- Character-level model of the three sequential global replacements
`replace(/&/g,'^&').replace(/</g,'^<').replace(/>/g,'^>')` performed by
`checkCommand` / `checkCommandSync` (main.cjs lines 59 and 88).  Since the
replacements only insert a caret before the matched character and never
introduce a new `&`, `<` or `>`, one left-to-right pass is equivalent. -/
def escapeChars : List Char → List Char
  | [] => []
  | c :: rest =>
      if c = '&' then '^' :: '&' :: escapeChars rest
      else if c = '<' then '^' :: '<' :: escapeChars rest
      else if c = '>' then '^' :: '>' :: escapeChars rest
      else c :: escapeChars rest

/-- Escape the Windows shell metacharacters of a command string. -/
def escapeWinMeta (s : String) : String :=
  String.mk (escapeChars s.data)

/-- Whitespace predicate for the trim model. -/
def isWsChar (c : Char) : Bool :=
  c == ' ' || c == '\t' || c == '\n' || c == '\r'

/-- Model of JavaScript `String.prototype.trim` used on probe stdout. -/
def trimChars (s : String) : String :=
  String.mk (((s.data.dropWhile isWsChar).reverse.dropWhile isWsChar).reverse)

/-- The full command line `executeCommand` hands to the shell
(main.cjs lines 129-138): on win32 it is wrapped as `cmd /c <command>`
WITHOUT escaping; elsewhere it is passed unmodified. -/
def executeCommandFull (platform command : String) : String :=
  if platform = "win32" then "cmd /c " ++ command else command

/-- The full command line `checkCommand` (and `checkCommandSync`) hands to
the shell (main.cjs lines 85-95): on win32 the metacharacters are escaped
and the result wrapped as `cmd /c <escaped>`; elsewhere unmodified. -/
def checkCommandFull (platform command : String) : String :=
  if platform = "win32" then "cmd /c " ++ escapeWinMeta command else command

/-- Model of the `options.timeout || 300000` default applied by
`executeCommand` (main.cjs line 146); JavaScript `||` treats 0 as absent. -/
def timeoutOrDefault : Option Nat → Nat
  | some n => if n = 0 then 300000 else n
  | none => 300000

/-- The normalized result `executeCommand` resolves with
(main.cjs lines 154-159): `success = !error`, `output` is stdout, `error`
is stderr, `code` is `error ? error.code : 0`. -/
structure ExecutionResult where
  success : Bool
  output : String
  error : String
  code : Option Nat
deriving DecidableEq, Repr

/-- Embedding of `executeCommand` (main.cjs lines 125-173) applied to the
oracle outcome of the spawned process.  It always resolves (never throws):
in the embedding this is totality of the function. -/
def executeCommand (platform command : String) (proc : ProcOutcome) : ExecutionResult :=
  let cb := execCallbackOf proc
  { success := cb.error.isNone
    output := cb.stdout
    error := cb.stderr
    code :=
      match cb.error with
      | none => some 0
      | some e => errorCodeOf e }

/-- The probe result shape of `checkCommand` (main.cjs lines 104-108). -/
structure ProbeResult where
  installed : Bool
  version : Option String
  error : Option String
deriving DecidableEq, Repr

/-- Embedding of `checkCommand` (main.cjs lines 81-111): resolves with
`installed = !error`, `version = error ? null : stdout.trim()`,
`error = error ? stderr : null`. -/
def checkCommand (proc : ProcOutcome) : ProbeResult :=
  let cb := execCallbackOf proc
  { installed := cb.error.isNone
    version := if cb.error.isNone then some (trimChars cb.stdout) else none
    error := if cb.error.isNone then none else some cb.stderr }

/-- The closed set of managed components (src/src/types.ts and the probe
battery of main.cjs lines 113-123). -/
inductive ComponentKind where
  | docker
  | kubectl
  | helm
  | git
  | minikube
  | kind
deriving DecidableEq, Repr

/-- The fixed version-check command per component
(main.cjs lines 115-120). -/
def versionCheckCommand : ComponentKind → String
  | .docker => "docker --version"
  | .kubectl => "kubectl version --client"
  | .helm => "helm version"
  | .git => "git --version"
  | .minikube => "minikube version"
  | .kind => "kind version"

/-- Embedding of `checkPrerequisites` (main.cjs lines 113-123): one
`checkCommand` probe per component, against the environment oracle that
maps each command line to its process outcome. -/
def checkPrerequisites (env : String → ProcOutcome) : ComponentKind → ProbeResult :=
  fun c => checkCommand (env (versionCheckCommand c))

/-- The host facts `detectPackageManager` consults: results of the two
Windows probes, existence of the three Linux marker files, and the result
of the `dnf --version` probe. -/
structure DetectEnv where
  wingetProbe : Bool
  chocoProbe : Bool
  debianVersionExists : Bool
  redhatReleaseExists : Bool
  archReleaseExists : Bool
  dnfProbe : Bool
deriving DecidableEq, Repr

/-- Embedding of `detectLinuxPackageManager` (main.cjs lines 44-50). -/
def detectLinuxPackageManager (e : DetectEnv) : String :=
  if e.debianVersionExists then "apt"
  else if e.redhatReleaseExists then "yum"
  else if e.archReleaseExists then "pacman"
  else if e.dnfProbe then "dnf"
  else "unknown"

/-- Embedding of `detectPackageManager` (main.cjs lines 29-42); the value
is the string the source stores in `this.packageManager`. -/
def detectPackageManager (platform : String) (e : DetectEnv) : String :=
  if platform = "darwin" then "homebrew"
  else if platform = "win32" then
    (if e.wingetProbe then "winget"
     else if e.chocoProbe then "choco"
     else "unknown")
  else if platform = "linux" then detectLinuxPackageManager e
  else "unknown"

/-- The PackageManagerKind enumeration as the specification names it. -/
inductive PackageManagerKind where
  | homebrew
  | winget
  | chocolatey
  | apt
  | yum
  | dnf
  | pacman
  | unknown
deriving DecidableEq, Repr

/-- Modelled from the spec: the detection priority order of spec section
4.2, stated over the abstract PackageManagerKind enumeration (macOS always
homebrew; Windows winget before chocolatey; Linux marker files
debian/redhat/arch before the dnf probe; anything else unknown). -/
def detectPackageManagerSpec (platform : String) (e : DetectEnv) : PackageManagerKind :=
  if platform = "darwin" then .homebrew
  else if platform = "win32" then
    (if e.wingetProbe then .winget
     else if e.chocoProbe then .chocolatey
     else .unknown)
  else if platform = "linux" then
    (if e.debianVersionExists then .apt
     else if e.redhatReleaseExists then .yum
     else if e.archReleaseExists then .pacman
     else if e.dnfProbe then .dnf
     else .unknown)
  else .unknown

/-- The string the source uses for each abstract package-manager kind. -/
def pmKindString : PackageManagerKind → String
  | .homebrew => "homebrew"
  | .winget => "winget"
  | .chocolatey => "choco"
  | .apt => "apt"
  | .yum => "yum"
  | .dnf => "dnf"
  | .pacman => "pacman"
  | .unknown => "unknown"

/-- The winget install command for Docker Desktop (main.cjs line 250). -/
def wingetDockerInstallCommand : String :=
  "winget install --id Docker.DockerDesktop --accept-package-agreements --accept-source-agreements --silent --force"

/-- The chocolatey install command for Docker Desktop (main.cjs line 251). -/
def chocoDockerInstallCommand : String :=
  "choco install docker-desktop -y --force"

/-- The Linux Docker install command (main.cjs line 255). -/
def dockerLinuxInstallCommand : String :=
  "curl -fsSL https://get.docker.com -o get-docker.sh && sudo sh get-docker.sh && rm get-docker.sh"

/-- The winget install command for kubectl (main.cjs line 305). -/
def wingetKubectlInstallCommand : String :=
  "winget install --id Kubernetes.kubectl --accept-package-agreements --accept-source-agreements --silent --force"

/-- The chocolatey install command for kubectl (main.cjs line 306). -/
def chocoKubectlInstallCommand : String :=
  "choco install kubernetes-cli -y"

/-- The apt install command for kubectl on Linux (main.cjs line 311). -/
def kubectlAptInstallCommand : String :=
  "sudo apt-get update && sudo apt-get install -y kubectl"

/-- The direct-binary kubectl install command on Linux (main.cjs line 313). -/
def kubectlLinuxBinaryInstallCommand : String :=
  "curl -LO \"https://dl.k8s.io/release/$(curl -L -s https://dl.k8s.io/release/stable.txt)/bin/linux/amd64/kubectl\" && chmod +x kubectl && sudo install kubectl /usr/local/bin/ && rm kubectl"

/-- The winget install command for Minikube (main.cjs line 364). -/
def wingetMinikubeInstallCommand : String :=
  "winget install --id Kubernetes.minikube --accept-package-agreements --accept-source-agreements --silent --force"

/-- The chocolatey install command for Minikube (main.cjs line 365). -/
def chocoMinikubeInstallCommand : String :=
  "choco install minikube -y"

/-- The direct-binary Minikube install command on Linux (main.cjs line 369). -/
def minikubeLinuxInstallCommand : String :=
  "curl -LO https://storage.googleapis.com/minikube/releases/latest/minikube-linux-amd64 && chmod +x minikube-linux-amd64 && sudo install minikube-linux-amd64 /usr/local/bin/minikube && rm minikube-linux-amd64"

/-- The winget install command for Kind (main.cjs line 419). -/
def wingetKindInstallCommand : String :=
  "winget install --id Kubernetes.Kind --accept-package-agreements --accept-source-agreements --silent --force"

/-- The chocolatey install command for Kind (main.cjs line 420). -/
def chocoKindInstallCommand : String :=
  "choco install kind -y"

/-- The direct-binary Kind install command on Linux (main.cjs line 424). -/
def kindLinuxInstallCommand : String :=
  "curl -Lo kind \"https://kind.sigs.k8s.io/dl/latest/kind-linux-amd64\" && chmod +x kind && sudo install kind /usr/local/bin/ && rm kind"

/-- The winget install command for Helm (main.cjs line 474). -/
def wingetHelmInstallCommand : String :=
  "winget install --id Helm.Helm --accept-package-agreements --accept-source-agreements --silent --force"

/-- The chocolatey install command for Helm (main.cjs line 475). -/
def chocoHelmInstallCommand : String :=
  "choco install kubernetes-helm -y"

/-- The Linux Helm install command (main.cjs line 479). -/
def helmLinuxInstallCommand : String :=
  "curl https://raw.githubusercontent.com/helm/helm/main/scripts/get-helm-3 | bash"

/-- Command resolution of `installDocker` (main.cjs lines 240-264): the
command string per platform, `none` for an unsupported platform. -/
def dockerInstallCommand (platform pm : String) : Option String :=
  if platform = "darwin" then some "brew install --cask docker"
  else if platform = "win32" then
    some (if pm = "winget" then wingetDockerInstallCommand else chocoDockerInstallCommand)
  else if platform = "linux" then some dockerLinuxInstallCommand
  else none

/-- Command resolution of `installKubectl` (main.cjs lines 295-323). -/
def kubectlInstallCommand (platform pm : String) : Option String :=
  if platform = "darwin" then some "brew install kubectl"
  else if platform = "win32" then
    some (if pm = "winget" then wingetKubectlInstallCommand else chocoKubectlInstallCommand)
  else if platform = "linux" then
    some (if pm = "apt" then kubectlAptInstallCommand else kubectlLinuxBinaryInstallCommand)
  else none

/-- Command resolution of `installMinikube` (main.cjs lines 354-378). -/
def minikubeInstallCommand (platform pm : String) : Option String :=
  if platform = "darwin" then some "brew install minikube"
  else if platform = "win32" then
    some (if pm = "winget" then wingetMinikubeInstallCommand else chocoMinikubeInstallCommand)
  else if platform = "linux" then some minikubeLinuxInstallCommand
  else none

/-- Command resolution of `installKind` (main.cjs lines 409-433). -/
def kindInstallCommand (platform pm : String) : Option String :=
  if platform = "darwin" then some "brew install kind"
  else if platform = "win32" then
    some (if pm = "winget" then wingetKindInstallCommand else chocoKindInstallCommand)
  else if platform = "linux" then some kindLinuxInstallCommand
  else none

/-- Command resolution of `installHelm` (main.cjs lines 464-488). -/
def helmInstallCommand (platform pm : String) : Option String :=
  if platform = "darwin" then some "brew install helm"
  else if platform = "win32" then
    some (if pm = "winget" then wingetHelmInstallCommand else chocoHelmInstallCommand)
  else if platform = "linux" then some helmLinuxInstallCommand
  else none

/-- The outcome surfaced to the caller for an install/start step; `skip`,
`output` and `error` are `none` when the source object omits the field. -/
structure InstallOutcome where
  success : Bool
  message : String
  skip : Option Bool := none
  output : Option String := none
  error : Option String := none
deriving DecidableEq, Repr

/-- Post-processing shared verbatim by the five install functions
(e.g. main.cjs lines 266-286 for Docker): when the execution failed and the
truthy stderr contains "already installed" or "No available upgrade", the
outcome is reclassified as success with the "<name> is already installed"
message; otherwise the execution result is reported as is. -/
def classifyInstall (name : String) (res : ExecutionResult) : InstallOutcome :=
  if !res.success && res.error != "" &&
      (containsSub res.error "already installed" ||
       containsSub res.error "No available upgrade") then
    { success := true
      message := name ++ " is already installed"
      output := some res.output
      error := some res.error }
  else
    { success := res.success
      message := if res.success then name ++ " installed successfully"
                 else name ++ " installation failed"
      output := some res.output
      error := some res.error }

/-- Shared tail of the five install functions: the unsupported-platform
outcome when no command resolves (e.g. main.cjs lines 257-263), otherwise
one `executeCommand` dispatch followed by `classifyInstall`.  The second
component records the (command, effective timeout) pairs spawned. -/
def runInstall (name : String) (cmd? : Option String) (tmo : Option Nat)
    (platform : String) (env : String → ProcOutcome) :
    InstallOutcome × List (String × Nat) :=
  match cmd? with
  | none =>
      ({ success := false
         message := "Unsupported platform: " ++ platform
         output := some ""
         error := some ("Installation not supported on " ++ platform) }, [])
  | some c =>
      (classifyInstall name (executeCommand platform c (env c)),
       [(c, timeoutOrDefault tmo)])

/-- Embedding of `installDocker` (main.cjs lines 234-287); the execution
uses a 10-minute timeout (line 266). -/
def installDocker (platform pm : String) (env : String → ProcOutcome) :
    InstallOutcome × List (String × Nat) :=
  runInstall "Docker" (dockerInstallCommand platform pm) (some 600000) platform env

/-- Embedding of `installKubectl` (main.cjs lines 289-346). -/
def installKubectl (platform pm : String) (env : String → ProcOutcome) :
    InstallOutcome × List (String × Nat) :=
  runInstall "kubectl" (kubectlInstallCommand platform pm) none platform env

/-- Embedding of `installMinikube` (main.cjs lines 348-401). -/
def installMinikube (platform pm : String) (env : String → ProcOutcome) :
    InstallOutcome × List (String × Nat) :=
  runInstall "Minikube" (minikubeInstallCommand platform pm) none platform env

/-- Embedding of `installKind` (main.cjs lines 403-456). -/
def installKind (platform pm : String) (env : String → ProcOutcome) :
    InstallOutcome × List (String × Nat) :=
  runInstall "Kind" (kindInstallCommand platform pm) none platform env

/-- Embedding of `installHelm` (main.cjs lines 458-511). -/
def installHelm (platform pm : String) (env : String → ProcOutcome) :
    InstallOutcome × List (String × Nat) :=
  runInstall "Helm" (helmInstallCommand platform pm) none platform env

/-- Embedding of the `install-component` IPC handler
(main.cjs lines 629-646): dispatch on the component string, immediate
"Unknown component" failure (no spawn) on anything else. -/
def installComponent (component platform pm : String)
    (env : String → ProcOutcome) : InstallOutcome × List (String × Nat) :=
  if component = "docker" then installDocker platform pm env
  else if component = "kubectl" then installKubectl platform pm env
  else if component = "minikube" then installMinikube platform pm env
  else if component = "kind" then installKind platform pm env
  else if component = "helm" then installHelm platform pm env
  else ({ success := false, message := "Unknown component" }, [])

/-- The Homebrew bootstrap script command (main.cjs line 185). -/
def homebrewBootstrapCommand : String :=
  "/bin/bash -c \"$(curl -fsSL https://raw.githubusercontent.com/Homebrew/install/HEAD/install.sh)\""

/-- Embedding of `installHomebrew` (main.cjs lines 175-194): no-op skip off
macOS, skip when the `brew --version` probe reports installed, otherwise
one bootstrap-script execution with a 10-minute timeout. -/
def installHomebrew (platform : String) (env : String → ProcOutcome) :
    InstallOutcome × List (String × Nat) :=
  if platform ≠ "darwin" then
    ({ success := true, message := "Not macOS, skipping Homebrew installation"
       skip := some true }, [])
  else if (checkCommand (env "brew --version")).installed then
    ({ success := true, message := "Homebrew already installed"
       skip := some true }, [])
  else
    let result := executeCommand platform homebrewBootstrapCommand (env homebrewBootstrapCommand)
    ({ success := result.success
       message := if result.success then "Homebrew installed successfully"
                  else "Homebrew installation failed"
       output := some result.output
       error := some result.error },
     [(homebrewBootstrapCommand, timeoutOrDefault (some 600000))])

/-- Embedding of `startMinikube` (main.cjs lines 513-521): runs
`minikube start` with a 10-minute timeout. -/
def startMinikube (platform : String) (env : String → ProcOutcome) :
    InstallOutcome × List (String × Nat) :=
  let result := executeCommand platform "minikube start" (env "minikube start")
  ({ success := result.success
     message := if result.success then "Minikube cluster started"
                else "Failed to start Minikube"
     output := some result.output
     error := some result.error },
   [("minikube start", timeoutOrDefault (some 600000))])

/-- Embedding of the `start-cluster` IPC handler (main.cjs lines 648-664):
`minikube` starts Minikube, `kind` runs `kind create cluster`, anything
else is an immediate "Unknown cluster type" failure with no spawn. -/
def startCluster (clusterType platform : String) (env : String → ProcOutcome) :
    InstallOutcome × List (String × Nat) :=
  if clusterType = "minikube" then startMinikube platform env
  else if clusterType = "kind" then
    let result := executeCommand platform "kind create cluster" (env "kind create cluster")
    ({ success := result.success
       message := if result.success then "Kind cluster created"
                  else "Failed to create Kind cluster"
       output := some result.output
       error := some result.error },
     [("kind create cluster", timeoutOrDefault none)])
  else ({ success := false, message := "Unknown cluster type" }, [])

/-- The display name each install function uses in its messages. -/
def displayName : String → String
  | "docker" => "Docker"
  | "kubectl" => "kubectl"
  | "minikube" => "Minikube"
  | "kind" => "Kind"
  | "helm" => "Helm"
  | s => s

/-- What correct already-installed reclassification means for one executed
command result `res` and surfaced outcome `out`: a failed execution whose
stderr carries one of the two marker substrings is reported as success with
the already-installed message, and a failed execution without a marker is
reported as failure. -/
def reclassSpec (name : String) (res : ExecutionResult) (out : InstallOutcome) : Prop :=
  (res.success = false ∧
      (containsSub res.error "already installed" ||
       containsSub res.error "No available upgrade") = true →
    out.success = true ∧ out.message = name ++ " is already installed") ∧
  (res.success = false ∧
      (containsSub res.error "already installed" ||
       containsSub res.error "No available upgrade") = false →
    out.success = false)

/-- Helper: `classifyInstall` satisfies the stderr-based reclassification
specification for every component name and execution result. -/
theorem classifyInstall_meets_reclassSpec (name : String) (res : ExecutionResult) :
    reclassSpec name res (classifyInstall name res) := by
  constructor
  · rintro ⟨hs, hsub⟩
    have hne : res.error ≠ "" := by
      intro he
      rw [he] at hsub
      exact absurd hsub (by decide)
    simp [classifyInstall, hs, hsub, hne]
  · rintro ⟨hs, hsub⟩
    simp [classifyInstall, hs, hsub]

/-- C2: For every command line and options, the Process Runner
(`executeCommand`) never throws — in the embedding it is a total function
into `ExecutionResult` — and exactly one of succeeded=true with exit code 0
or succeeded=false with a non-zero or null exit code holds: success is
reported iff the process exited with code 0, while non-zero exit, timeout
and spawn failure all surface as succeeded=false values. -/
theorem executeCommand_total_classification (platform command : String) (proc : ProcOutcome) :
    (executeCommand platform command proc).success = exitsZero proc ∧
    (executeCommand platform command proc).code = execCode proc ∧
    ((executeCommand platform command proc).success = true ↔
      (executeCommand platform command proc).code = some 0) ∧
    ((executeCommand platform command proc).success = false ↔
      (executeCommand platform command proc).code = none ∨
        ∃ n, n ≠ 0 ∧ (executeCommand platform command proc).code = some n) := by
  cases proc with
  | exited c out err =>
      by_cases h : c = 0
      · subst h
        simp [executeCommand, execCallbackOf, exitsZero, execCode]
      · refine ⟨by simp [executeCommand, execCallbackOf, exitsZero, h],
          by simp [executeCommand, execCallbackOf, execCode, errorCodeOf, h],
          by simp [executeCommand, execCallbackOf, errorCodeOf, h], ?_⟩
        simp only [executeCommand, execCallbackOf, errorCodeOf, if_neg h, Option.isNone_some,
          Option.some.injEq, reduceCtorEq, false_or]
        exact ⟨fun _ => ⟨c, h, rfl⟩, fun _ => trivial⟩
  | timedOut out err =>
      simp [executeCommand, execCallbackOf, exitsZero, execCode, errorCodeOf]
  | spawnFailed msg =>
      simp [executeCommand, execCallbackOf, exitsZero, execCode, errorCodeOf]

/-- C3: `detectPackageManager` is deterministic and refines the fixed
priority order of the specification: macOS always homebrew; Windows winget
before chocolatey before unknown; Linux the three marker files in order,
then the dnf probe, then unknown; any other OS family unknown. -/
theorem detectPackageManager_matches_spec (platform : String) (e : DetectEnv) :
    detectPackageManager platform e = pmKindString (detectPackageManagerSpec platform e) := by
  rcases e with ⟨w, ch, deb, rh, ar, dn⟩
  by_cases h1 : platform = "darwin"
  · simp [detectPackageManager, detectPackageManagerSpec, pmKindString, h1]
  · by_cases h2 : platform = "win32"
    · cases w <;> cases ch <;>
        simp [detectPackageManager, detectPackageManagerSpec, pmKindString, h1, h2]
    · by_cases h3 : platform = "linux"
      · cases deb <;> cases rh <;> cases ar <;> cases dn <;>
          simp [detectPackageManager, detectPackageManagerSpec, detectLinuxPackageManager,
            pmKindString, h1, h2, h3]
      · simp [detectPackageManager, detectPackageManagerSpec, pmKindString, h1, h2, h3]

/-- C4: For all six ComponentKinds, `checkPrerequisites` returns a
ProbeResult with installed=true iff that component's fixed version-check
command exits zero; timed-out and failing probes yield installed=false, and
a probe never raises (the embedding is a total function). -/
theorem checkPrerequisites_installed_iff (env : String → ProcOutcome) (c : ComponentKind) :
    (checkPrerequisites env c).installed = exitsZero (env (versionCheckCommand c)) := by
  cases h : env (versionCheckCommand c) with
  | exited code out err =>
      by_cases hc : code = 0 <;>
        simp [checkPrerequisites, checkCommand, execCallbackOf, exitsZero, h, hc]
  | timedOut out err =>
      simp [checkPrerequisites, checkCommand, execCallbackOf, exitsZero, h]
  | spawnFailed msg =>
      simp [checkPrerequisites, checkCommand, execCallbackOf, exitsZero, h]

/-- C1 (amended): For every component install operation (docker, kubectl,
minikube, kind, helm) on a supported platform, exactly one install command
is executed; if it fails and the captured STDERR contains "already
installed" or "No available upgrade", the outcome is succeeded=true with
the already-installed message, and if it fails with neither substring in
stderr the outcome is succeeded=false.  Stdout is not inspected. -/
theorem installComponent_reclassifies_stderr (component platform pm : String)
    (env : String → ProcOutcome)
    (hc : component = "docker" ∨ component = "kubectl" ∨ component = "minikube" ∨
          component = "kind" ∨ component = "helm")
    (hp : platform = "darwin" ∨ platform = "win32" ∨ platform = "linux") :
    ∃ cmd tmo,
      (installComponent component platform pm env).2 = [(cmd, tmo)] ∧
      reclassSpec (displayName component)
        (executeCommand platform cmd (env cmd))
        (installComponent component platform pm env).1 := by
  rcases hc with h | h | h | h | h <;> subst h <;>
    rcases hp with h | h | h <;> subst h <;>
      exact ⟨_, _, rfl, classifyInstall_meets_reclassSpec _ _⟩

/-- Witness for C1 at a concrete input: kubectl on apt Linux, with the
install command failing with exit code 100 and stderr reporting the
package already installed. -/
theorem installComponent_reclassifies_stderr_witness :
    ∃ cmd tmo,
      (installComponent "kubectl" "linux" "apt"
          (fun _ => ProcOutcome.exited 100 "" "kubectl is already installed")).2 = [(cmd, tmo)] ∧
      reclassSpec (displayName "kubectl")
        (executeCommand "linux" cmd (ProcOutcome.exited 100 "" "kubectl is already installed"))
        (installComponent "kubectl" "linux" "apt"
          (fun _ => ProcOutcome.exited 100 "" "kubectl is already installed")).1 :=
  installComponent_reclassifies_stderr "kubectl" "linux" "apt"
    (fun _ => ProcOutcome.exited 100 "" "kubectl is already installed")
    (Or.inr (Or.inl rfl)) (Or.inr (Or.inr rfl))

/-- Counterexample to C1 as stated: a failed docker install on Linux whose
STDOUT contains "already installed" while stderr is empty is NOT
reclassified — the outcome is succeeded=false with the failure message,
because the source only inspects `result.error` (stderr). -/
theorem installComponent_stdout_not_inspected :
    (executeCommand "linux" dockerLinuxInstallCommand
        (ProcOutcome.exited 1 "docker already installed" "")).success = false ∧
    containsSub (executeCommand "linux" dockerLinuxInstallCommand
        (ProcOutcome.exited 1 "docker already installed" "")).output "already installed" = true ∧
    (installComponent "docker" "linux" "apt"
        (fun _ => ProcOutcome.exited 1 "docker already installed" "")).1.success = false ∧
    (installComponent "docker" "linux" "apt"
        (fun _ => ProcOutcome.exited 1 "docker already installed" "")).1.message =
      "Docker installation failed" := by
  exact ⟨rfl, by decide, rfl, rfl⟩

/-- C5: An unrecognized component string yields the "Unknown component"
failure outcome and an unrecognized cluster-type string the "Unknown
cluster type" failure outcome, in both cases with an empty spawn record —
no process is dispatched. -/
theorem invalid_request_no_spawn (component clusterType platform pm : String)
    (env : String → ProcOutcome)
    (hc : component ≠ "docker" ∧ component ≠ "kubectl" ∧ component ≠ "minikube" ∧
          component ≠ "kind" ∧ component ≠ "helm")
    (ht : clusterType ≠ "minikube" ∧ clusterType ≠ "kind") :
    installComponent component platform pm env =
      ({ success := false, message := "Unknown component" }, []) ∧
    startCluster clusterType platform env =
      ({ success := false, message := "Unknown cluster type" }, []) := by
  obtain ⟨h1, h2, h3, h4, h5⟩ := hc
  obtain ⟨t1, t2⟩ := ht
  constructor
  · simp [installComponent, h1, h2, h3, h4, h5]
  · simp [startCluster, t1, t2]

/-- Witness for C5 at the concrete invalid inputs "not-a-real-component"
and "bogus". -/
theorem invalid_request_no_spawn_witness :
    installComponent "not-a-real-component" "linux" "apt"
        (fun _ => ProcOutcome.exited 0 "" "") =
      ({ success := false, message := "Unknown component" }, []) ∧
    startCluster "bogus" "linux" (fun _ => ProcOutcome.exited 0 "" "") =
      ({ success := false, message := "Unknown cluster type" }, []) :=
  invalid_request_no_spawn "not-a-real-component" "bogus" "linux" "apt"
    (fun _ => ProcOutcome.exited 0 "" "") (by decide) (by decide)

/-- C6: The claim fails on the code.  On win32 the probe wrapper escapes
the metacharacters before wrapping with the Windows command interpreter,
but `executeCommand` — through which every install command is dispatched —
wraps the raw command with no escaping, so a command containing `&` goes
to cmd.exe unescaped, contradicting the function's own comment and the
specification. -/
theorem executeCommand_win32_unescaped :
    executeCommandFull "win32" "echo a & echo b" = "cmd /c echo a & echo b" ∧
    checkCommandFull "win32" "echo a & echo b" = "cmd /c echo a ^& echo b" ∧
    executeCommandFull "win32" "echo a & echo b" ≠
      "cmd /c " ++ escapeWinMeta "echo a & echo b" ∧
    executeCommandFull "linux" "echo a & echo b" = "echo a & echo b" := by
  exact ⟨rfl, rfl, by decide, rfl⟩

/-- C7 (amended): On Windows `installKind` resolves the winget
Kubernetes.Kind install command when the detected package manager is
winget, and the chocolatey command for every other value — there IS a
winget path for the kind component. -/
theorem installKind_windows_resolution (pm : String) :
    kindInstallCommand "win32" pm =
      some (if pm = "winget" then wingetKindInstallCommand else chocoKindInstallCommand) := rfl

/-- Counterexample to C7 as stated: with package manager winget, the
resolved Windows command for kind is the winget command, not a chocolatey
command. -/
theorem installKind_winget_path_cex :
    kindInstallCommand "win32" "winget" = some wingetKindInstallCommand ∧
    wingetKindInstallCommand ≠ chocoKindInstallCommand ∧
    containsSub wingetKindInstallCommand "winget install --id Kubernetes.Kind" = true ∧
    containsSub wingetKindInstallCommand "choco" = false := by
  exact ⟨rfl, by decide, by decide, by decide⟩

/-- C8: Every Linux install command that downloads a binary artifact
(docker's install script, kubectl on non-apt systems, minikube, kind)
names the downloaded file in its curl clause and ends by removing exactly
that file after the install step, leaving no temporary artifact. -/
theorem linux_binary_downloads_cleaned :
    (dockerInstallCommand "linux" "apt" = some dockerLinuxInstallCommand ∧
      containsSub dockerLinuxInstallCommand "-o get-docker.sh" = true ∧
      endsWithStr dockerLinuxInstallCommand "sudo sh get-docker.sh && rm get-docker.sh" = true) ∧
    (kubectlInstallCommand "linux" "yum" = some kubectlLinuxBinaryInstallCommand ∧
      containsSub kubectlLinuxBinaryInstallCommand "curl -LO" = true ∧
      endsWithStr kubectlLinuxBinaryInstallCommand
        "sudo install kubectl /usr/local/bin/ && rm kubectl" = true) ∧
    (minikubeInstallCommand "linux" "apt" = some minikubeLinuxInstallCommand ∧
      containsSub minikubeLinuxInstallCommand "curl -LO" = true ∧
      endsWithStr minikubeLinuxInstallCommand
        "sudo install minikube-linux-amd64 /usr/local/bin/minikube && rm minikube-linux-amd64" = true) ∧
    (kindInstallCommand "linux" "apt" = some kindLinuxInstallCommand ∧
      containsSub kindLinuxInstallCommand "curl -Lo kind" = true ∧
      endsWithStr kindLinuxInstallCommand
        "sudo install kind /usr/local/bin/ && rm kind" = true) := by
  exact ⟨⟨rfl, by decide, by decide⟩, ⟨rfl, by decide, by decide⟩,
    ⟨rfl, by decide, by decide⟩, ⟨rfl, by decide, by decide⟩⟩

/-- C9: `installHomebrew` spawns the bootstrap script (with the 10-minute
timeout) exactly when the platform is macOS and the `brew --version` probe
reports Homebrew absent; in every other case it is a skipped no-op
(skip=true) with no process dispatched. -/
theorem installHomebrew_policy (platform : String) (env : String → ProcOutcome) :
    ((installHomebrew platform env).2 =
      if platform = "darwin" ∧ (checkCommand (env "brew --version")).installed = false
      then [(homebrewBootstrapCommand, 600000)] else []) ∧
    ((installHomebrew platform env).1.skip = some true ↔
      (platform = "darwin" → (checkCommand (env "brew --version")).installed = true)) := by
  by_cases hp : platform = "darwin"
  · subst hp
    by_cases hb : (checkCommand (env "brew --version")).installed = true
    · simp [installHomebrew, hb]
    · have hb' : (checkCommand (env "brew --version")).installed = false := by
        cases hx : (checkCommand (env "brew --version")).installed
        · rfl
        · exact absurd hx hb
      simp [installHomebrew, hb', timeoutOrDefault]
  · simp [installHomebrew, hp]

/-- C10: On Windows, for every package-manager value other than winget
(including unknown), each install operation with a winget path (docker,
kubectl, minikube, helm) resolves the chocolatey install command — there
is no undetected-package-manager failure on Windows. -/
theorem windows_nonwinget_resolves_choco (pm : String) (h : pm ≠ "winget") :
    dockerInstallCommand "win32" pm = some chocoDockerInstallCommand ∧
    kubectlInstallCommand "win32" pm = some chocoKubectlInstallCommand ∧
    minikubeInstallCommand "win32" pm = some chocoMinikubeInstallCommand ∧
    helmInstallCommand "win32" pm = some chocoHelmInstallCommand := by
  refine ⟨?_, ?_, ?_, ?_⟩
  · have e : dockerInstallCommand "win32" pm =
        some (if pm = "winget" then wingetDockerInstallCommand
              else chocoDockerInstallCommand) := rfl
    rw [e, if_neg h]
  · have e : kubectlInstallCommand "win32" pm =
        some (if pm = "winget" then wingetKubectlInstallCommand
              else chocoKubectlInstallCommand) := rfl
    rw [e, if_neg h]
  · have e : minikubeInstallCommand "win32" pm =
        some (if pm = "winget" then wingetMinikubeInstallCommand
              else chocoMinikubeInstallCommand) := rfl
    rw [e, if_neg h]
  · have e : helmInstallCommand "win32" pm =
        some (if pm = "winget" then wingetHelmInstallCommand
              else chocoHelmInstallCommand) := rfl
    rw [e, if_neg h]

/-- Witness for C10 at the concrete value "unknown" (neither winget nor
chocolatey was detected). -/
theorem windows_nonwinget_resolves_choco_witness :
    dockerInstallCommand "win32" "unknown" = some chocoDockerInstallCommand ∧
    kubectlInstallCommand "win32" "unknown" = some chocoKubectlInstallCommand ∧
    minikubeInstallCommand "win32" "unknown" = some chocoMinikubeInstallCommand ∧
    helmInstallCommand "win32" "unknown" = some chocoHelmInstallCommand :=
  windows_nonwinget_resolves_choco "unknown" (by decide)
